import Mathlib

/-!
Shallow embedding of the capslock-qa-tests page-object logic: the
validation-error matcher, the multi-step form fill sequence, the slider
synchronization engine (clone filtering, active-index readback, image
identity canonicalization), the thank-you redirect check, the disclosure
panel toggle, and the gallery counter parser, together with theorems
settling the specification claims about them.
-/

namespace CapslockQA

/-! ## Character-list helpers (JS string semantics) -/

/-- Case-sensitive test that `pat` occurs at the head of `s`. -/
def startsWithSeg : List Char → List Char → Bool
  | _, [] => true
  | [], _ :: _ => false
  | a :: as, b :: bs => a == b && startsWithSeg as bs

/-- Case-sensitive test that `pat` occurs somewhere inside `s`
(JS `String.prototype.includes` over char lists). -/
def containsSeg : List Char → List Char → Bool
  | [], pat => pat.isEmpty
  | a :: t, pat => startsWithSeg (a :: t) pat || containsSeg t pat

/-- Case-insensitive containment of `m` in `s`, the semantics of testing an
escaped literal against a string under the JS regex `i` flag. -/
def containsCI (s m : String) : Bool :=
  containsSeg (s.data.map Char.toLower) (m.data.map Char.toLower)

/-- Numeric value of a list of decimal digit characters, most significant
first, as accumulated by JS `parseInt` on a digit run. -/
def digitsToNat (ds : List Char) : Nat :=
  ds.foldl (fun n c => 10 * n + (c.toNat - '0'.toNat)) 0

/-- JS `split(sep)` with a single-character separator: the list of
(possibly empty) segments between occurrences of `sep`.  Always nonempty. -/
def jsSplit (sep : Char) : List Char → List (List Char)
  | [] => [[]]
  | c :: cs =>
      match jsSplit sep cs with
      | [] => [[]]
      | h :: t => if c = sep then [] :: h :: t else (c :: h) :: t

/-! ## Validation-error matcher (FormPage.expectValidationError,
FormComponent.expectValidationError) -/

/-- The character class `[.*+?^$\x7b\x7d()|[\]\\]` that the source escapes in
`msg.replace(/[.*+?^$\x7b\x7d()|[\]\\]/g, '\\$&')`. -/
def escapeSet : List Char :=
  ['.', '*', '+', '?', '^', '$', '{', '}', '(', ')', '|', '[', ']', '\\']

/-- The source's `msg.replace(/[.*+?^$\x7b\x7d()|[\]\\]/g, '\\$&')`: each
metacharacter is replaced by a backslash followed by itself. -/
def escapeRegExp : List Char → List Char
  | [] => []
  | c :: cs => (if c ∈ escapeSet then ['\\', c] else [c]) ++ escapeRegExp cs

/-- Semantics of the fragment of JS regexes the escaped patterns fall in:
a pattern made of literal characters, backslash escapes of single
characters, and top-level alternation bars denotes the list of literal
alternative strings.  `parseAlternatives` recovers those alternatives. -/
def parseAlternatives : List Char → List (List Char)
  | [] => [[]]
  | '\\' :: c :: rest =>
      match parseAlternatives rest with
      | [] => [[c]]
      | h :: t => (c :: h) :: t
  | '|' :: rest => [] :: parseAlternatives rest
  | c :: rest =>
      match parseAlternatives rest with
      | [] => [[c]]
      | h :: t => (c :: h) :: t

/-- A pattern in the literal-alternation fragment, compiled with the `i`
flag and tested against `s` (unanchored, so substring search): some
alternative occurs in `s` up to case. -/
def regexAcceptsCI (pat : List Char) (s : String) : Bool :=
  (parseAlternatives pat).any
    (fun b => containsSeg (s.data.map Char.toLower) (b.map Char.toLower))

/-- Form field names from the source (`type FormFieldName`). -/
inductive FormFieldName
  | zip
  | email
  | phone
deriving DecidableEq, Repr

/-- One entry of `errorMessageMap`: the invalid-format and empty-field
messages of a field. -/
structure FieldErrors where
  invalid : String
  empty : String
deriving DecidableEq, Repr

/-- The source's `errorMessageMap`. -/
def errorMessageMap : FormFieldName → FieldErrors
  | .zip => ⟨"Wrong ZIP code.", "Enter your ZIP code."⟩
  | .email => ⟨"Wrong email.", "Enter your email address."⟩
  | .phone => ⟨"Wrong phone number.", "Enter your phone number."⟩

/-- The combined pattern `expectedErrorMessages.map(escape).join('|')` built
by `expectValidationError`, in the source's order `[invalid, empty]`. -/
def combinedPattern (f : FormFieldName) : List Char :=
  escapeRegExp (errorMessageMap f).invalid.data
    ++ '|' :: escapeRegExp (errorMessageMap f).empty.data

/-- Whether the matcher built by `expectValidationError(f)` accepts a
displayed error text `s` (Playwright `hasText` with a regex is an
unanchored, case-insensitive test of the element text). -/
def expectValidationErrorMatches (f : FormFieldName) (s : String) : Bool :=
  regexAcceptsCI (combinedPattern f) s

/-! ## Multi-step form fill sequence (FormPage.fillForm,
FormComponent.fillForm) -/

/-- Form data (`interface FormData`): all fields optional. -/
structure FormData where
  zip : Option String := none
  email : Option String := none
  phone : Option String := none
deriving DecidableEq, Repr

/-- Page-mutating events the fill sequence emits, in order: a field fill,
a click of the "Next" button, or a click of the "Submit" button. -/
inductive FormEvent
  | fill (f : FormFieldName) (v : String)
  | clickNext
  | clickSubmit
deriving DecidableEq, Repr

/-- The event trace of `fillForm(data)`: zip is filled then committed with
the Next button; email is filled then committed with the Submit button
(the Next click is commented out in the source); phone is filled with no
commit action. -/
def fillForm (d : FormData) : List FormEvent :=
  (match d.zip with
    | some v => [.fill .zip v, .clickNext]
    | none => [])
  ++ (match d.email with
    | some v => [.fill .email v, .clickSubmit]
    | none => [])
  ++ (match d.phone with
    | some v => [.fill .phone v]
    | none => [])

/-- The claimed trace, following the spec's words: every step that is not
last in the fixed order zip → email → phone is committed with the advance
("Next") action, and only the final step is committed with the finalize
("Submit") action. -/
def specFillForm (d : FormData) : List FormEvent :=
  (match d.zip with
    | some v => [.fill .zip v, .clickNext]
    | none => [])
  ++ (match d.email with
    | some v => [.fill .email v, .clickNext]
    | none => [])
  ++ (match d.phone with
    | some v => [.fill .phone v, .clickSubmit]
    | none => [])

/-- The complete valid form data from the fixtures (`validFormData`). -/
def validFormData : FormData :=
  { zip := some "12345", email := some "john.doe@example.com",
    phone := some "1234567890" }

/-! ## Image identity canonicalization
(SliderComponent.expectActiveImagesMatch) -/

/-- The source's `src?.split('/').pop()?.split('.')[0] || ''`: the last
`/`-separated segment of the reference, cut at the first `.`, with a
missing reference collapsing to the empty token. -/
def imageToken : Option String → String
  | none => ""
  | some s =>
      ⟨(jsSplit '.' ((jsSplit '/' s.data).getLastD [])).headD []⟩

/-- The canonical token as the spec words it: take the last `/`-separated
path segment and drop everything after (and including) the first `.`. -/
def specImageIdentity (s : String) : String :=
  ⟨((jsSplit '/' s.data).getLastD []).takeWhile (fun c => c ≠ '.')⟩

/-- `expectActiveImagesMatch` succeeds exactly when the two canonical
tokens computed from the active main and preview image references agree. -/
def expectActiveImagesMatch (mainSrc previewSrc : Option String) : Prop :=
  imageToken mainSrc = imageToken previewSrc

instance (m p : Option String) : Decidable (expectActiveImagesMatch m p) :=
  inferInstanceAs (Decidable (_ = _))

/-! ## Slider DOM model: clone filtering and active-index readback
(SliderComponent.getTotalSlidesCount, getActiveSlideIndex,
getActivePreviewIndex) -/

/-- A rendered slide element: its class list and attribute list. -/
structure DomElement where
  classes : List String
  attrs : List (String × String)
deriving DecidableEq, Repr

/-- Whether an element carries a given class token. -/
def hasClass (e : DomElement) (c : String) : Bool :=
  e.classes.contains c

/-- Attribute readback (`getAttribute`): the first binding of the name,
`none` when the attribute is absent. -/
def getAttr (e : DomElement) (n : String) : Option String :=
  (e.attrs.find? (fun p => p.1 == n)).map (fun p => p.2)

/-- Failures surfaced by the driver layer: a required element was absent,
or a bounded wait expired. -/
inductive DriverError
  | elementNotFound
  | timeout
deriving DecidableEq, Repr

/-- JS `parseInt(s, 10)`: skip leading whitespace, read an optional sign
and a nonempty digit run; `none` models NaN. -/
def jsParseInt (s : String) : Option Int :=
  match s.data.dropWhile Char.isWhitespace with
  | '-' :: rest =>
      let ds := rest.takeWhile Char.isDigit
      if ds.isEmpty then none else some (-(digitsToNat ds : Int))
  | '+' :: rest =>
      let ds := rest.takeWhile Char.isDigit
      if ds.isEmpty then none else some ((digitsToNat ds : Int))
  | l =>
      let ds := l.takeWhile Char.isDigit
      if ds.isEmpty then none else some ((digitsToNat ds : Int))

/-- `getTotalSlidesCount`: count of elements matching
`.sliderDefault__item:not(.slick-cloned)` among the main carousel's slide
elements. -/
def getTotalSlidesCount (items : List DomElement) : Nat :=
  (items.filter
    (fun e => hasClass e "sliderDefault__item" && !hasClass e "slick-cloned")).length

/-- Shared body of `getActiveSlideIndex` and `getActivePreviewIndex` over
the carousel's item elements (`.sliderDefault__item` resp.
`.sliderPrev__item`, in document order): locate the first element also
carrying `slick-current` (the assertion `toHaveClass(/slick-current/)`
fails with an element-not-found error when there is none), then return
`index ? parseInt(index, 10) : -1` from its `data-slick-index` attribute;
the inner `Option Int` is the JS number, `none` modelling NaN. -/
def getActiveIndex (items : List DomElement) : Except DriverError (Option Int) :=
  match items.find? (fun e => hasClass e "slick-current") with
  | none => .error .elementNotFound
  | some el =>
      match getAttr el "data-slick-index" with
      | none => .ok (some (-1))
      | some s => if s.isEmpty then .ok (some (-1)) else .ok (jsParseInt s)

/-- `getActiveSlideIndex`, instantiated at the main carousel's items. -/
def getActiveSlideIndex (items : List DomElement) : Except DriverError (Option Int) :=
  getActiveIndex items

/-- `getActivePreviewIndex`, instantiated at the preview carousel's items. -/
def getActivePreviewIndex (items : List DomElement) : Except DriverError (Option Int) :=
  getActiveIndex items

/-! ## Thank-you redirect check (FormPage.expectThankYouRedirect,
FormComponent.expectThankYouRedirect) -/

/-- The pattern `/thank/i` tested against an address: case-insensitive
substring search for "thank". -/
def urlMatchesThank (u : String) : Bool :=
  containsCI u "thank"

/-- `page.waitForURL(/thank/i, ...)` over the addresses the page shows
within the timeout budget, in order: succeeds at the first matching
address, times out when none matches. -/
def waitForThankURL (timeline : List String) : Except DriverError String :=
  match timeline.find? urlMatchesThank with
  | none => .error .timeout
  | some u => .ok u

/-- `expectThankYouRedirect`: the bounded wait for a matching address must
succeed, and the location current afterwards (`toHaveURL(/thank/i)`) must
match the pattern. -/
def expectThankYouRedirect (timeline : List String) (finalURL : String) : Bool :=
  (match waitForThankURL timeline with
    | .ok _ => true
    | .error _ => false)
  && urlMatchesThank finalURL

/-! ## Carousel navigation state (SliderComponent.clickNext,
clickPrevious and the wrap-around behaviour the suite tests) -/

/-- Modelled from the spec: `clickNext`/`clickPrevious` in the source only
click the navigation control and wait for the transition to settle; the
resulting active-index arithmetic is the wraparound policy of §4.1 ("index
arithmetic over the logical (non-clone) slide count, independent of how
many physical clone elements the rendering layer inserts"), which the
source only observes through its tests.  `total` is the non-clone slide
count N, `clonesBefore`/`clonesAfter` count the physical clone elements at
either end, `active` the current logical position. -/
structure CarouselState where
  total : Nat
  clonesBefore : Nat
  clonesAfter : Nat
  active : Nat
deriving DecidableEq, Repr

/-- The carousel as first observed: active position 0. -/
def initCarousel (n cb ca : Nat) : CarouselState :=
  ⟨n, cb, ca, 0⟩

/-- Modelled from the spec: an `advance('next')` that has settled moves the
active position to `(active + 1) mod N`. -/
def clickNext (s : CarouselState) : CarouselState :=
  { s with active := (s.active + 1) % s.total }

/-- Modelled from the spec: an `advance('previous')` that has settled moves
the active position to `(active + N - 1) mod N`. -/
def clickPrevious (s : CarouselState) : CarouselState :=
  { s with active := (s.active + s.total - 1) % s.total }

/-- `k`-fold application of a settled navigation step. -/
def iterateClicks (f : CarouselState → CarouselState) : Nat → CarouselState → CarouselState
  | 0, s => s
  | k + 1, s => f (iterateClicks f k s)

/-! ## Disclosure panel toggle (ReviewsComponent.toggleShowMoreLess,
ReviewsComponent.isExpanded) -/

/-- The disclosure panel as the component observes it: whether the
container carries the `reviewWrap_opened` state class, and whether the
`reviewFull` detail region is visible. -/
structure PanelState where
  expanded : Bool
  detailVisible : Bool
deriving DecidableEq, Repr

/-- `toggleShowMoreLess`: read the current flag from the state class
(`isExpanded`), click the control, then block until the flag's negation is
observed, so a completed call ends with `expanded = !before`.  Modelled
from the spec for the detail region: the site couples the `reviewFull`
region's visibility to the state class (§4.3's three agreeing signals), so
after the settled toggle the region is visible exactly when the panel is
expanded. -/
def toggleShowMoreLess (s : PanelState) : PanelState :=
  { expanded := !s.expanded, detailVisible := !s.expanded }

/-! ## Gallery counter parser (ReviewsComponent.getCurrentImageIndex,
ReviewsComponent.getTotalImageCount) -/

/-- Attempt to match `\d+\s*\/\s*\d+` at the head of `l`: a maximal
nonempty digit run, optional whitespace, a slash, optional whitespace and
a second nonempty digit run (maximal-munch is exact here since no
backtracking can help this pattern).  Returns the two numbers, which are
the two capture groups of the source's regexes. -/
def tryCounterAt (l : List Char) : Option (Nat × Nat) :=
  let ds := l.takeWhile Char.isDigit
  if ds.isEmpty then none
  else
    match (l.drop ds.length).dropWhile Char.isWhitespace with
    | '/' :: r =>
        let ds2 := (r.dropWhile Char.isWhitespace).takeWhile Char.isDigit
        if ds2.isEmpty then none else some (digitsToNat ds, digitsToNat ds2)
    | _ => none

/-- Leftmost match of `\d+\s*\/\s*\d+` in the counter text (JS
`match` semantics for this pattern): try each start position left to
right.  Both of the source's regexes — `(\d+)\s*\/\s*\d+` and
`\d+\s*\/\s*(\d+)` — describe this same pattern and match at the same
place, so one search yields both capture groups. -/
def findCounter : List Char → Option (Nat × Nat)
  | [] => none
  | c :: t =>
      match tryCounterAt (c :: t) with
      | some r => some r
      | none => findCounter t

/-- `getCurrentImageIndex`: the first capture group of the counter match,
`0` when the text does not match. -/
def getCurrentImageIndex (counterText : String) : Nat :=
  match findCounter counterText.data with
  | some r => r.1
  | none => 0

/-- `getTotalImageCount`: the second capture group of the counter match,
`0` when the text does not match. -/
def getTotalImageCount (counterText : String) : Nat :=
  match findCounter counterText.data with
  | some r => r.2
  | none => 0

/-- A pattern lies in the literal-alternation regex fragment: it is made
only of backslash-escape pairs, top-level alternation bars, and characters
that are not regex metacharacters.  For such a pattern the JS regex
semantics coincides with `parseAlternatives`. -/
def literalFragment : List Char → Bool
  | [] => true
  | '\\' :: _ :: rest => literalFragment rest
  | c :: rest => !(escapeSet.contains c && c != '|') && literalFragment rest

/-! ## Helper lemmas -/

theorem jsSplit_cons (sep c : Char) (cs : List Char) :
    jsSplit sep (c :: cs)
      = match jsSplit sep cs with
        | [] => [[]]
        | h :: t => if c = sep then [] :: h :: t else (c :: h) :: t := rfl

theorem jsSplit_ne_nil (sep : Char) (l : List Char) : jsSplit sep l ≠ [] := by
  cases l with
  | nil => simp [jsSplit]
  | cons c cs =>
      rcases h : jsSplit sep cs with _ | ⟨h0, t⟩
      · rw [jsSplit_cons, h]; simp
      · rw [jsSplit_cons, h]
        show (if c = sep then [] :: h0 :: t else (c :: h0) :: t) ≠ []
        split <;> simp

theorem jsSplit_headD (sep : Char) (l : List Char) :
    (jsSplit sep l).headD [] = l.takeWhile (fun c => c ≠ sep) := by
  induction l with
  | nil => rfl
  | cons c cs ih =>
      rcases h : jsSplit sep cs with _ | ⟨h0, t⟩
      · exact absurd h (jsSplit_ne_nil sep cs)
      · rw [h] at ih
        rw [jsSplit_cons, h]
        by_cases hc : c = sep
        · simp [hc, List.takeWhile_cons]
        · simp only [hc, if_false, List.headD_cons, List.takeWhile_cons]
          simp only [List.headD_cons] at ih
          simp [hc, ih]

/-- The token produced by the source's split-based extraction is the last
path segment cut at the first dot, for every reference string. -/
theorem imageToken_eq_specImageIdentity (s : String) :
    imageToken (some s) = specImageIdentity s := by
  show String.mk ((jsSplit '.' ((jsSplit '/' s.data).getLastD [])).headD [])
    = specImageIdentity s
  unfold specImageIdentity
  rw [jsSplit_headD]

theorem carousel_iterate_active (n cb ca : Nat) (k : Nat) :
    iterateClicks clickNext k (initCarousel n cb ca)
      = ⟨n, cb, ca, k % n⟩ := by
  induction k with
  | zero => simp [iterateClicks, initCarousel]
  | succ k ih =>
      show clickNext (iterateClicks clickNext k (initCarousel n cb ca)) = _
      rw [ih]
      unfold clickNext
      simp [Nat.mod_add_mod]

/-! ## Claim theorems -/

/-- C1: for every field and every displayed error text `s`, the matcher
built by `expectValidationError(f)` accepts `s` iff `s` contains the
field's empty-field message or its invalid-format message up to case; the
combined pattern lies in the literal fragment (every metacharacter of the
candidate messages is escaped) and parses to exactly the two candidate
messages as one alternation. -/
theorem C1_expectValidationError_matcher (f : FormFieldName) (s : String) :
    literalFragment (combinedPattern f) = true ∧
    parseAlternatives (combinedPattern f)
      = [(errorMessageMap f).invalid.data, (errorMessageMap f).empty.data] ∧
    (expectValidationErrorMatches f s = true ↔
      containsCI s (errorMessageMap f).empty = true ∨
      containsCI s (errorMessageMap f).invalid = true) := by
  have hfrag : literalFragment (combinedPattern f) = true := by
    cases f <;> decide
  have key : parseAlternatives (combinedPattern f)
      = [(errorMessageMap f).invalid.data, (errorMessageMap f).empty.data] := by
    cases f <;> decide
  refine ⟨hfrag, key, ?_⟩
  unfold expectValidationErrorMatches regexAcceptsCI
  rw [key]
  simp [containsCI, List.any_cons, or_comm]

/-- C2 counterexample: on the full valid form data, the trace of
`fillForm` commits the email step — which is not last in the order
zip → email → phone — with the Submit click, and the phone step has no
commit at all, so it differs from the trace the claim describes. -/
theorem C2_counterexample :
    fillForm validFormData
      = [.fill .zip "12345", .clickNext,
         .fill .email "john.doe@example.com", .clickSubmit,
         .fill .phone "1234567890"] ∧
    specFillForm validFormData ≠ fillForm validFormData := by
  exact ⟨rfl, by decide⟩

/-- C2 amended: commit actions in `fillForm` are fixed per field, not
chosen by position — the zip fill is committed with the Next click, the
email fill with the Submit click, and the phone fill has no commit
event. -/
theorem C2_fillForm_commit_actions (vz ve vp : String) :
    fillForm ⟨some vz, some ve, some vp⟩
      = [.fill .zip vz, .clickNext, .fill .email ve, .clickSubmit,
         .fill .phone vp] := rfl

/-- C3: the canonical image-identity token is the last `/`-separated path
segment truncated at the first `.`, and `expectActiveImagesMatch` succeeds
iff the tokens of the two active image references are equal. -/
theorem C3_imageIdentity_canonical (m p : String) :
    imageToken (some m) = specImageIdentity m ∧
    (expectActiveImagesMatch (some m) (some p) ↔
      specImageIdentity m = specImageIdentity p) := by
  refine ⟨imageToken_eq_specImageIdentity m, ?_⟩
  unfold expectActiveImagesMatch
  rw [imageToken_eq_specImageIdentity m, imageToken_eq_specImageIdentity p]

/-- C10: an absent image source canonicalizes to the empty token (as does
a source with no path segment content), and with both active sources
missing the images-match assertion succeeds. -/
theorem C10_missing_src_empty_token :
    imageToken none = "" ∧ imageToken (some "") = "" ∧
    expectActiveImagesMatch none none := by
  refine ⟨rfl, by decide, rfl⟩

/-- C4: when no item of the queried carousel carries the `slick-current`
marker class, both active-index readers fail with the element-not-found
error; when a marked element exists, they return the position parsed from
the `data-slick-index` attribute on the first marked element. -/
theorem C4_activeIndex_marker (items : List DomElement) :
    ((∀ e ∈ items, hasClass e "slick-current" = false) →
      getActiveSlideIndex items = .error .elementNotFound ∧
      getActivePreviewIndex items = .error .elementNotFound) ∧
    (∀ e s k, items.find? (fun e => hasClass e "slick-current") = some e →
      getAttr e "data-slick-index" = some s → s.isEmpty = false →
      jsParseInt s = some k →
      getActiveSlideIndex items = .ok (some k) ∧
      getActivePreviewIndex items = .ok (some k)) := by
  constructor
  · intro h
    have hf : items.find? (fun e => hasClass e "slick-current") = none := by
      rw [List.find?_eq_none]
      intro x hx
      simp [h x hx]
    unfold getActiveSlideIndex getActivePreviewIndex getActiveIndex
    rw [hf]
    exact ⟨rfl, rfl⟩
  · intro e s k hfind hattr hne hparse
    unfold getActiveSlideIndex getActivePreviewIndex getActiveIndex
    rw [hfind]
    simp [hattr, hne, hparse]

/-- A main-carousel slide carrying the current marker and position 2. -/
def currentSlideEl : DomElement :=
  ⟨["sliderDefault__item", "slick-current"], [("data-slick-index", "2")]⟩

theorem C4_activeIndex_marker_witness :
    getActiveSlideIndex [] = .error .elementNotFound ∧
    getActiveSlideIndex [currentSlideEl] = .ok (some 2) := by
  constructor
  · exact ((C4_activeIndex_marker []).1 (by simp)).1
  · exact ((C4_activeIndex_marker [currentSlideEl]).2 currentSlideEl "2" 2
      (by decide) (by decide) (by decide) (by decide)).1

/-- C5: the main-carousel slide count is exactly the number of item
elements not carrying the `slick-cloned` marker class — a predicate over
the full element set, unchanged by inserting a clone element at any
position. -/
theorem C5_totalSlides_clone_filter (pre post : List DomElement)
    (c : DomElement) (hc : hasClass c "slick-cloned" = true) :
    getTotalSlidesCount (pre ++ c :: post) = getTotalSlidesCount (pre ++ post) ∧
    getTotalSlidesCount (pre ++ post)
      = (pre ++ post).countP
          (fun e => hasClass e "sliderDefault__item" && !hasClass e "slick-cloned") := by
  constructor
  · unfold getTotalSlidesCount
    simp [List.filter_append, List.filter_cons, hc]
  · unfold getTotalSlidesCount
    rw [List.countP_eq_length_filter]

/-- A plain (non-clone) main-carousel slide. -/
def plainSlideEl : DomElement := ⟨["sliderDefault__item"], []⟩

/-- A cloned main-carousel slide. -/
def cloneSlideEl : DomElement := ⟨["sliderDefault__item", "slick-cloned"], []⟩

theorem C5_totalSlides_clone_filter_witness :
    getTotalSlidesCount ([plainSlideEl] ++ cloneSlideEl :: [plainSlideEl])
      = getTotalSlidesCount ([plainSlideEl] ++ [plainSlideEl]) ∧
    getTotalSlidesCount ([plainSlideEl] ++ [plainSlideEl])
      = ([plainSlideEl] ++ [plainSlideEl]).countP
          (fun e => hasClass e "sliderDefault__item" && !hasClass e "slick-cloned") :=
  C5_totalSlides_clone_filter [plainSlideEl] [plainSlideEl] cloneSlideEl (by decide)

/-- C6: the redirect check succeeds exactly when some address observed
within the wait budget matches the thank-you pattern and the location
current afterwards matches it too; in particular, with the address never
leaving a non-matching value (a same-page thank-you message), the check
fails. -/
theorem C6_thankYouRedirect_pattern (timeline : List String) (finalURL : String) :
    (expectThankYouRedirect timeline finalURL = true ↔
      (∃ u ∈ timeline, urlMatchesThank u = true) ∧
      urlMatchesThank finalURL = true) ∧
    (∀ u0 n, urlMatchesThank u0 = false →
      expectThankYouRedirect (List.replicate n u0) u0 = false) := by
  constructor
  · unfold expectThankYouRedirect waitForThankURL
    rcases h : timeline.find? urlMatchesThank with _ | u
    · rw [List.find?_eq_none] at h
      simp only [Bool.false_and]
      constructor
      · intro hf
        simp at hf
      · rintro ⟨⟨u, hu, hm⟩, _⟩
        exact absurd hm (by simpa using h u hu)
    · have hmem := List.mem_of_find?_eq_some h
      have hmatch := List.find?_some h
      simp only [Bool.true_and]
      exact ⟨fun hf => ⟨⟨u, hmem, hmatch⟩, hf⟩, fun hf => hf.2⟩
  · intro u0 n h
    unfold expectThankYouRedirect waitForThankURL
    rcases hfind : (List.replicate n u0).find? urlMatchesThank with _ | u
    · simp
    · have hmatch := List.find?_some hfind
      have hmem := List.mem_of_find?_eq_some hfind
      rw [List.eq_of_mem_replicate hmem, h] at hmatch
      exact absurd hmatch (by simp)

theorem C6_thankYouRedirect_pattern_witness :
    expectThankYouRedirect
        (List.replicate 3 "https://test-qa.capslock.global/")
        "https://test-qa.capslock.global/" = false :=
  (C6_thankYouRedirect_pattern [] "").2 "https://test-qa.capslock.global/" 3
    (by decide)

/-- C7: over the logical non-clone slide count N ≥ 1, starting at
position 0, k settled next-advances land on k mod N and one settled
previous-advance lands on N - 1, for every number of physical clone
elements at either end. -/
theorem C7_wraparound (n cb ca k : Nat) (hn : 1 ≤ n) (hk : k < n) :
    (iterateClicks clickNext k (initCarousel n cb ca)).active = k % n ∧
    (iterateClicks clickNext k (initCarousel n cb ca)).active = k ∧
    (clickPrevious (initCarousel n cb ca)).active = n - 1 := by
  refine ⟨?_, ?_, ?_⟩
  · rw [carousel_iterate_active n cb ca k]
  · rw [carousel_iterate_active n cb ca k]
    exact Nat.mod_eq_of_lt hk
  · show (0 + n - 1) % n = n - 1
    rw [Nat.zero_add]
    exact Nat.mod_eq_of_lt (Nat.sub_lt hn Nat.one_pos)

theorem C7_wraparound_witness :
    (iterateClicks clickNext 3 (initCarousel 5 1 2)).active = 3 % 5 ∧
    (iterateClicks clickNext 3 (initCarousel 5 1 2)).active = 3 ∧
    (clickPrevious (initCarousel 5 1 2)).active = 5 - 1 :=
  C7_wraparound 5 1 2 3 (by decide) (by decide)

/-- C8: a settled toggle negates the state-class flag, and from any state
whose detail-region visibility agrees with the flag, two consecutive
toggles restore both the flag and the visibility. -/
theorem C8_toggle_self_inverse (s : PanelState) :
    (toggleShowMoreLess s).expanded = !s.expanded ∧
    (s.detailVisible = s.expanded →
      toggleShowMoreLess (toggleShowMoreLess s) = s) := by
  refine ⟨rfl, ?_⟩
  intro h
  cases s with
  | mk e d =>
      cases e <;> cases d <;> simp_all [toggleShowMoreLess]

theorem C8_toggle_self_inverse_witness :
    toggleShowMoreLess (toggleShowMoreLess ⟨false, false⟩)
      = (⟨false, false⟩ : PanelState) :=
  (C8_toggle_self_inverse ⟨false, false⟩).2 rfl

/-- C9 counterexample: a counter text with no "m / n" pattern makes both
parsers return 0, and 0 does not lie in [1, 0], so the claimed invariant
fails for such strings. -/
theorem C9_counterexample :
    getCurrentImageIndex "no counter" = 0 ∧
    getTotalImageCount "no counter" = 0 ∧
    ¬(1 ≤ getCurrentImageIndex "no counter" ∧
      getCurrentImageIndex "no counter" ≤ getTotalImageCount "no counter") := by
  refine ⟨by decide, by decide, by decide⟩

/-- C9 amended: whenever the counter text matches the "m / n" pattern, the
parsed position is m and the total is n, and if the displayed counter
satisfies 1 ≤ m ≤ n then the position lies in [1, total]; counter strings
with no match yield 0 for both, violating the lower bound. -/
theorem C9_gallery_counter_bounds (s : String) (m n : Nat)
    (hfind : findCounter s.data = some (m, n)) (hm : 1 ≤ m) (hmn : m ≤ n) :
    getCurrentImageIndex s = m ∧ getTotalImageCount s = n ∧
    1 ≤ getCurrentImageIndex s ∧
    getCurrentImageIndex s ≤ getTotalImageCount s := by
  unfold getCurrentImageIndex getTotalImageCount
  rw [hfind]
  exact ⟨rfl, rfl, hm, hmn⟩

theorem C9_gallery_counter_bounds_witness :
    getCurrentImageIndex " 2 / 15 " = 2 ∧
    getTotalImageCount " 2 / 15 " = 15 ∧
    1 ≤ getCurrentImageIndex " 2 / 15 " ∧
    getCurrentImageIndex " 2 / 15 " ≤ getTotalImageCount " 2 / 15 " :=
  C9_gallery_counter_bounds " 2 / 15 " 2 15 (by decide) (by decide) (by decide)

end CapslockQA
